import Mathlib

/-!
Shallow embedding of the ai-briefing-system repository (Python sources
`src/node1_backend.py`, `src/node2_api.py`, `src/prompts.py`), together with
spec-modelled fragments for the orchestrator module `node2_briefing_generator`,
which the repository imports but whose source file is not present.

Dictionaries travelling between stages are embedded as structures with
`Option`-typed fields (Python `dict.get(key, default)` becomes `Option.getD`);
the JSONL profile store is a `List` of records (one element per line);
the FastAPI handlers become pure functions from request and state to an
`Except`-wrapped response plus the successor state, parametrised over the
outcome of the opaque network calls they await.  JSON numbers (relevance
scores) are modelled as rationals.
-/

namespace Briefing

/-- HTTP error raised via `HTTPException(status_code=..., detail=...)`. -/
structure HTTPError where
  status_code : Nat
  detail : String
deriving DecidableEq, Repr

/-! ## node1_backend.py — intake backend -/

namespace Node1

/-- `UserProfile` pydantic model of `src/node1_backend.py` (lines 28-35). -/
structure UserProfile where
  version : String
  email : String
  name : Option String
  briefing_time : String
  topics : List String
  created_at : String
deriving DecidableEq, Repr

/-- The JSONL profile store `user_profiles.jsonl`: one stored profile per
line, in file order. -/
def Store := List UserProfile

/-- `GoogleSheetsWriter.write_profile` (lines 60-77): appends the profile as
one JSONL line and reports success. -/
def write_profile (store : List UserProfile) (profile : UserProfile) :
    List UserProfile × Bool :=
  (store ++ [profile], true)

/-- `GoogleSheetsWriter.get_profiles` (lines 79-93): parses every non-empty
line back into a profile, in file order. -/
def get_profiles (store : List UserProfile) : List UserProfile :=
  store

/-- Unsigned core of Python `int(...)`: all characters must be digits and at
least one must be present. -/
def digitsToNat (cs : List Char) : Option Nat :=
  match cs with
  | [] => none
  | _ => cs.foldl
      (fun acc c =>
        match acc with
        | none => none
        | some n => if c.isDigit then some (n * 10 + (c.toNat - 48)) else none)
      (some 0)

/-- Python `int(str)` on one split field: an optional sign followed by
digits; anything else raises, modelled as `none`. -/
def pyToInt (cs : List Char) : Option Int :=
  match cs with
  | '-' :: rest => (digitsToNat rest).map (fun n => -(n : Int))
  | '+' :: rest => (digitsToNat rest).map (fun n => (n : Int))
  | _ => (digitsToNat cs).map (fun n => (n : Int))

/-- Python `str.split(':')` over the character list: fields between the
colon separators, so the empty string gives one empty field. -/
def splitCols : List Char → List (List Char)
  | [] => [[]]
  | c :: cs =>
    let r := splitCols cs
    if c = ':' then [] :: r
    else
      match r with
      | [] => [[c]]
      | h :: t => (c :: h) :: t

/-- The `int(hour)`/`int(minute)` bounds check of `create_intake`
(lines 121-127): `briefing_time.split(':')` must unpack to exactly two
fields, both integers, with `0 <= hour < 24` and `0 <= minute < 60`;
any failure is the 400 case. -/
def validBriefingTime (s : String) : Bool :=
  match splitCols s.toList with
  | [h, m] =>
    match pyToInt h, pyToInt m with
    | some hv, some mv => decide (0 ≤ hv ∧ hv < 24 ∧ 0 ≤ mv ∧ mv < 60)
    | _, _ => false
  | _ => false

/-- Success payload of `POST /api/intake`. -/
structure IntakeResponse where
  status : String
  message : String
  profile : UserProfile
deriving DecidableEq, Repr

/-- `create_intake` (lines 109-149): validates email presence, briefing-time
format and non-empty topics, then appends the profile to the store via
`write_profile`.  Returns the successor store and the HTTP outcome. -/
def create_intake (store : List UserProfile) (profile : UserProfile) :
    List UserProfile × Except HTTPError IntakeResponse :=
  if profile.email = "" then
    (store, Except.error ⟨400, "Email is required"⟩)
  else if validBriefingTime profile.briefing_time = false then
    (store, Except.error ⟨400, "Invalid briefing time format (use HH:MM)"⟩)
  else if profile.topics.isEmpty then
    (store, Except.error ⟨400, "At least one topic must be selected"⟩)
  else
    let res := write_profile store profile
    if res.2 = false then
      (store, Except.error ⟨500, "Failed to save profile"⟩)
    else
      (res.1, Except.ok ⟨"success", "Profile created for " ++ profile.email, profile⟩)

end Node1

/-! ## prompts.py — prompt construction -/

namespace Prompts

/-- `format_topics` (prompts.py lines 7-9): `", ".join(topics)`. -/
def format_topics (topics : List String) : String :=
  String.intercalate ", " topics

/-- The fields of a processed-article summary dict that
`build_landscape_prompt` reads (`a['title']`, `a['summary']`). -/
structure SummaryEntry where
  title : String
  summary : String
deriving DecidableEq, Repr

/-- One per-source block of the landscape summaries text
(prompts.py lines 166-169): a `## source` header followed by one
`- title: summary` line for each of the first three articles. -/
def sourceBlock (source : String) (articles : List SummaryEntry) : String :=
  "\n## " ++ source ++ "\n" ++
    (articles.take 3).foldl
      (fun acc a => acc ++ "- " ++ a.title ++ ": " ++ a.summary ++ "\n") ""

/-- The `summaries_text` accumulation loop of `build_landscape_prompt`
(prompts.py lines 165-169), over the source-to-articles mapping in its
iteration order. -/
def summariesText (source_summaries : List (String × List SummaryEntry)) : String :=
  source_summaries.foldl (fun acc p => acc ++ sourceBlock p.1 p.2) ""

/-- `LANDSCAPE_SYSTEM` (prompts.py lines 48-54) with `user_topics`
substituted. -/
def LANDSCAPE_SYSTEM_text (user_topics : String) : String :=
  "You are an AI industry analyst creating a daily landscape briefing.\n\nThe reader cares about: "
    ++ user_topics ++
    "\n\nYour job is to synthesize what\x27s happening across the AI world today into a concise, scannable overview. Think of it like a morning briefing for an executive - high signal, no fluff.\n\nWrite in a direct, confident voice. Use present tense. No preamble."

/-- `LANDSCAPE_USER` (prompts.py lines 56-65) with `num_sources`,
`total_articles` and `summaries` substituted. -/
def LANDSCAPE_USER_text (num_sources : Nat) (total_articles : Nat)
    (summaries : String) : String :=
  "Here are today\x27s articles from " ++ toString num_sources ++ " sources ("
    ++ toString total_articles ++
    " articles total):\n\n" ++ summaries ++
    "\n\nWrite a 3-4 paragraph \"Landscape\" section covering:\n1. The biggest story/theme of the day (1 paragraph)\n2. Other notable developments worth knowing (1-2 paragraphs)\n3. One emerging trend or undercurrent (1 paragraph)\n\nKeep it under 250 words. No bullet points - flowing prose that\x27s easy to scan."

/-- `build_landscape_prompt` (prompts.py lines 160-177): system and user
prompts for the landscape synthesis call. -/
def build_landscape_prompt (user_topics : List String)
    (source_summaries : List (String × List SummaryEntry))
    (total_articles : Nat) : String × String :=
  (LANDSCAPE_SYSTEM_text (format_topics user_topics),
   LANDSCAPE_USER_text source_summaries.length total_articles
     (summariesText source_summaries))

end Prompts

/-! ## node2 data records (imported from `node2_briefing_generator`) -/

namespace Node2

/-- Modelled from the spec: the `UserProfile` record imported from
`node2_briefing_generator` (not among the provided sources); spec section 3
gives {email (unique key), name, briefing_time, topics, created_at}. -/
structure UserProfile where
  email : String
  name : String
  briefing_time : String
  topics : List String
  created_at : String
deriving DecidableEq, Repr

/-- Modelled from the spec: the `RunResult` record of
`node2_briefing_generator` (not among the provided sources); spec section 3
gives {user_email, status in {success, failure}, optional error}, and the
callers in src read `r.status`, `r.user_email` and `r.error`. -/
structure RunResult where
  user_email : String
  status : String
  error : Option String
deriving DecidableEq, Repr

/-- Modelled from the spec: the `ProcessedArticle` record imported from
`node2_briefing_generator` (not among the provided sources); field names are
those the constructor call in `node2_api.py` lines 160-168 passes, with
`rank` optional per spec section 3. -/
structure ProcessedArticle where
  source : String
  url : String
  title : String
  summary : String
  relevance : Rat
  keywords : List String
  why_selected : String
  rank : Option Nat
deriving DecidableEq, Repr

/-- Modelled from the spec: the `DeepDive` record imported from
`node2_briefing_generator` (not among the provided sources); spec section 3
gives {topic, hook, analysis, related_articles}. -/
structure DeepDive where
  topic : String
  hook : String
  analysis : String
  related_articles : List String
deriving DecidableEq, Repr

/-- The dict shape of a processed article flowing out of
`process_all_sites_parallel` and of a top-5 entry, as read by `.get` calls
in `node2_api.py` lines 160-167. -/
structure ArticleDict where
  source : Option String
  url : Option String
  title : Option String
  summary : Option String
  relevance : Option Rat
  keywords : Option (List String)
  why_selected : Option String
deriving DecidableEq, Repr

/-- The dict shape of one deep dive in the model response, as read by `.get`
calls in `node2_api.py` lines 173-177. -/
structure DeepDiveDict where
  topic : Option String
  hook : Option String
  analysis : Option String
  related_articles : Option (List String)
deriving DecidableEq, Repr

/-- One `ProcessedArticle` of the briefing `top_5`, built from the i-th
entry of the model ranking with `rank=i+1` (`node2_api.py` lines 160-168). -/
def mkTop5Entry (i : Nat) (a : ArticleDict) : ProcessedArticle :=
  { source := a.source.getD ""
    url := a.url.getD ""
    title := a.title.getD ""
    summary := a.summary.getD ""
    relevance := a.relevance.getD 0
    keywords := a.keywords.getD []
    why_selected := a.why_selected.getD ""
    rank := some (i + 1) }

/-- The `top_5` field of the assembled briefing (`node2_api.py` lines
159-171): `enumerate(top5[:5])` mapped through the `ProcessedArticle`
constructor. -/
def buildTop5 (top5 : List ArticleDict) : List ProcessedArticle :=
  ((top5.take 5).enum).map (fun p => mkTop5Entry p.1 p.2)

/-- The `deep_dives` field of the assembled briefing (`node2_api.py` lines
172-180): `deep_dives[:3]` mapped through the `DeepDive` constructor, with
`related_articles` taken verbatim from the response dict. -/
def buildDeepDives (deep_dives : List DeepDiveDict) : List DeepDive :=
  (deep_dives.take 3).map (fun d =>
    { topic := d.topic.getD ""
      hook := d.hook.getD ""
      analysis := d.analysis.getD ""
      related_articles := d.related_articles.getD [] })

/-- The URL set of a user's processed articles, against which the grounding
invariant is stated. -/
def processedUrls (processed : List ArticleDict) : List String :=
  processed.map (fun a => a.url.getD "")

/-- Modelled from the spec: `generate_deep_dives` of
`node2_briefing_generator` is not among the provided sources; spec sections
4.2 and 8 make it a single call producing up to 3 topic analyses with
`|generate_deep_dives(processed)| == min(3, configured_max)`, modelled as
truncating the model response to the first `min 3 configured_max` dives. -/
def generate_deep_dives (configured_max : Nat)
    (llmResponse : List DeepDiveDict) : List DeepDiveDict :=
  llmResponse.take (min 3 configured_max)

/-- Modelled from the spec: `BriefingGenerator.run` of
`node2_briefing_generator` is not among the provided sources; spec section
4.3 runs the per-user pipeline for each registered profile, capturing a
per-user failure into that profile's `RunResult` instead of raising, and
returns one result per profile in input order.  The opaque per-user
pipeline is a parameter. -/
def run (pipeline : UserProfile → Except String Unit)
    (profiles : List UserProfile) : List RunResult :=
  profiles.map (fun p =>
    match pipeline p with
    | Except.ok _ => { user_email := p.email, status := "success", error := none }
    | Except.error e => { user_email := p.email, status := "failure", error := some e })

end Node2

/-! ## node2_api.py — trigger API -/

namespace Node2

/-- The `job_status` module-level dict of `node2_api.py` line 37. -/
structure JobStatus where
  running : Bool
  last_run : Option String
  last_result : Option (Nat × Nat × Nat)
deriving DecidableEq, Repr

/-- `GenerateRequest` (node2_api.py lines 40-43). -/
structure GenerateRequest where
  email : Option String
  send_email : Bool
deriving DecidableEq, Repr

/-- `GenerateResponse` (node2_api.py lines 46-52). -/
structure GenerateResponse where
  status : String
  message : String
  users_processed : Nat
  successful : Nat
  failed : Nat
deriving DecidableEq, Repr

/-- The `POST /generate` handler `generate_briefings` (node2_api.py lines
67-107) as a pure step function.  `now` stands for
`datetime.utcnow().isoformat()+"Z"` and `runOutcome` for the outcome of the
awaited `generator.run()`: a result list, or the message of a raised
exception.  Returns the HTTP outcome together with the final `job_status`.
The 409 conflict raises before the `try` block, so the `finally` clause
does not touch the flag on that path; on both paths inside the `try` the
`finally` clears it. -/
def generate_briefings (request : GenerateRequest) (st : JobStatus)
    (now : String) (runOutcome : Except String (List RunResult)) :
    Except HTTPError GenerateResponse × JobStatus :=
  if st.running then
    (Except.error ⟨409, "A job is already running"⟩, st)
  else
    let st1 : JobStatus := { st with running := true, last_run := some now }
    match runOutcome with
    | Except.ok results =>
      let successful := (results.filter (fun r => r.status == "success")).length
      let failed := results.length - successful
      let st2 : JobStatus :=
        { st1 with last_result := some (results.length, successful, failed) }
      (Except.ok
        { status := "completed"
          message := "Generated briefings for " ++ toString results.length ++ " users"
          users_processed := results.length
          successful := successful
          failed := failed },
       { st2 with running := false })
    | Except.error e =>
      (Except.error ⟨500, e⟩, { st1 with running := false })

end Node2

/-! ## Concrete inputs used by witnesses and counterexamples -/

/-- A one-article processed set: its URL set is {http://a.com/x}. -/
def exProcessed : List Node2.ArticleDict :=
  [{ source := some "TechCrunch", url := some "http://a.com/x", title := some "T",
     summary := some "S", relevance := some 1, keywords := some ["ai"],
     why_selected := none }]

/-- A deep-dive response citing a URL that is not in `exProcessed`. -/
def exDives : List Node2.DeepDiveDict :=
  [{ topic := some "Agents", hook := some "H", analysis := some "A",
     related_articles := some ["http://bogus.example/z"] }]

/-- A three-dive model response. -/
def exDives3 : List Node2.DeepDiveDict :=
  [{ topic := some "Agents", hook := some "H1", analysis := some "A1",
     related_articles := some ["http://a.com/x"] },
   { topic := some "Compute", hook := some "H2", analysis := some "A2",
     related_articles := some [] },
   { topic := some "Policy", hook := some "H3", analysis := some "A3",
     related_articles := none }]

/-- A two-entry model ranking for the top-5 stage. -/
def exTop5 : List Node2.ArticleDict :=
  [{ source := some "S1", url := some "http://a.com/1", title := some "T1",
     summary := some "Su1", relevance := some 1, keywords := some ["k"],
     why_selected := some "w" },
   { source := none, url := none, title := none, summary := none,
     relevance := none, keywords := none, why_selected := none }]

/-- A two-user run outcome with one success and one failure. -/
def exResults : List Node2.RunResult :=
  [{ user_email := "u@example.com", status := "success", error := none },
   { user_email := "v@example.com", status := "failure", error := some "err" }]

/-- A valid intake profile. -/
def exProfile : Node1.UserProfile :=
  { version := "1.0", email := "a@example.com", name := some "A",
    briefing_time := "09:00", topics := ["ai"], created_at := "2024-01-01T00:00:00Z" }

/-! ## Theorems -/

/-- Claim C10: the `POST /generate` handler never reads the request body
fields `email` and `send_email`: from the same `job_status` state and the
same `run()` outcome, any two request bodies produce the same response and
the same successor state. -/
theorem generate_request_body_ignored (r1 r2 : Node2.GenerateRequest)
    (st : Node2.JobStatus) (now : String)
    (out : Except String (List Node2.RunResult)) :
    Node2.generate_briefings r1 st now out = Node2.generate_briefings r2 st now out :=
  rfl

/-- Claim C3: while a run is in progress (`job_status['running']` is true),
a second `POST /generate` invocation fails immediately with HTTP 409,
leaves the state unchanged, and its result does not depend on any run
outcome — no new run is started. -/
theorem generate_conflict_rejected (r : Node2.GenerateRequest)
    (st : Node2.JobStatus) (now : String)
    (out : Except String (List Node2.RunResult)) (h : st.running = true) :
    Node2.generate_briefings r st now out =
      (Except.error ⟨409, "A job is already running"⟩, st) := by
  simp [Node2.generate_briefings, h]

/-- Witness for C3 at a concrete busy state. -/
theorem generate_conflict_rejected_witness :
    Node2.generate_briefings ⟨none, true⟩ ⟨true, none, none⟩ "2024-01-01T00:00:00Z"
        (Except.ok []) =
      (Except.error ⟨409, "A job is already running"⟩, ⟨true, none, none⟩) :=
  generate_conflict_rejected ⟨none, true⟩ ⟨true, none, none⟩ "2024-01-01T00:00:00Z"
    (Except.ok []) rfl

/-- Claim C4: when the handler starts a run (no conflict at entry), the
`finally` clause clears `job_status['running']` on every exit path: whether
`run()` returns or raises, the flag is false after the handler finishes. -/
theorem generate_flag_released (r : Node2.GenerateRequest)
    (st : Node2.JobStatus) (now : String)
    (out : Except String (List Node2.RunResult)) (h : st.running = false) :
    ((Node2.generate_briefings r st now out).2).running = false := by
  cases out <;> simp [Node2.generate_briefings, h]

/-- Witness for C4 on the exception path of a started run. -/
theorem generate_flag_released_witness :
    ((Node2.generate_briefings ⟨none, true⟩ ⟨false, none, none⟩ "2024-01-01T00:00:00Z"
        (Except.error "boom")).2).running = false :=
  generate_flag_released ⟨none, true⟩ ⟨false, none, none⟩ "2024-01-01T00:00:00Z"
    (Except.error "boom") rfl

/-- Claim C5: a non-conflicting `POST /generate` whose `run()` returns a
result list answers with a structured summary, not an exception:
`users_processed` is the number of `RunResult`s, `successful` counts the
results with status `success`, and `failed` is their difference. -/
theorem generate_returns_summary (r : Node2.GenerateRequest)
    (st : Node2.JobStatus) (now : String) (results : List Node2.RunResult)
    (h : st.running = false) :
    ∃ resp : Node2.GenerateResponse,
      (Node2.generate_briefings r st now (Except.ok results)).1 = Except.ok resp ∧
      resp.status = "completed" ∧
      resp.users_processed = results.length ∧
      resp.successful = (results.filter (fun x => x.status == "success")).length ∧
      resp.failed = resp.users_processed - resp.successful := by
  refine ⟨⟨"completed", "Generated briefings for " ++ toString results.length ++ " users",
    results.length, (results.filter (fun x => x.status == "success")).length,
    results.length - (results.filter (fun x => x.status == "success")).length⟩,
    ?_, rfl, rfl, rfl, rfl⟩
  simp [Node2.generate_briefings, h]

/-- Witness for C5 at a concrete two-user outcome. -/
theorem generate_returns_summary_witness :
    ∃ resp : Node2.GenerateResponse,
      (Node2.generate_briefings ⟨none, true⟩ ⟨false, none, none⟩ "2024-01-01T00:00:00Z"
          (Except.ok exResults)).1 = Except.ok resp ∧
      resp.status = "completed" ∧
      resp.users_processed = exResults.length ∧
      resp.successful = (exResults.filter (fun x => x.status == "success")).length ∧
      resp.failed = resp.users_processed - resp.successful :=
  generate_returns_summary ⟨none, true⟩ ⟨false, none, none⟩ "2024-01-01T00:00:00Z"
    exResults rfl

/-- Claim C2: `run()` over any profile list and any per-user pipeline —
including pipelines that fail for some users — yields exactly one
`RunResult` per input profile, in input profile order. -/
theorem run_one_result_per_profile (pipeline : Node2.UserProfile → Except String Unit)
    (profiles : List Node2.UserProfile) :
    (Node2.run pipeline profiles).length = profiles.length ∧
    (Node2.run pipeline profiles).map Node2.RunResult.user_email
      = profiles.map Node2.UserProfile.email := by
  refine ⟨by simp [Node2.run], ?_⟩
  simp only [Node2.run, List.map_map]
  apply List.map_congr_left
  intro p _
  cases hp : pipeline p <;> simp [hp]

/-- Claim C1 counterexample: the assembled briefing stores a deep-dive URL
that is absent from the processed-article URL set — nothing filters it. -/
theorem deep_dive_url_passthrough_cx :
    "http://bogus.example/z" ∈
        List.flatten ((Node2.buildDeepDives exDives).map Node2.DeepDive.related_articles) ∧
    "http://bogus.example/z" ∉ Node2.processedUrls exProcessed := by
  decide

/-- Claim C1 (amended): the `related_articles` of the stored deep dives are
the model response's lists passed through verbatim (for the first three
dives); no post-validation against the processed URL set happens. -/
theorem deep_dive_urls_verbatim (dives : List Node2.DeepDiveDict) :
    (Node2.buildDeepDives dives).map Node2.DeepDive.related_articles
      = (dives.take 3).map (fun d => d.related_articles.getD []) := by
  simp [Node2.buildDeepDives, Function.comp_def]

/-- Claim C6: the briefing's `top_5` accepts the model ranking as-is — it has
exactly `min 5 k` entries for a `k`-entry ranking, and its `i`-th entry is
built verbatim from the `i`-th ranked entry with rank `i + 1`. -/
theorem top5_accepted_as_is (top5 : List Node2.ArticleDict) (i : Nat)
    (h : i < min 5 top5.length) :
    (Node2.buildTop5 top5).length = min 5 top5.length ∧
    ∃ hb : i < (Node2.buildTop5 top5).length, ∃ ht : i < top5.length,
      (Node2.buildTop5 top5).get ⟨i, hb⟩ = Node2.mkTop5Entry i (top5.get ⟨i, ht⟩) := by
  have hlen : (Node2.buildTop5 top5).length = min 5 top5.length := by
    simp [Node2.buildTop5]
  have ht : i < top5.length := Nat.lt_of_lt_of_le h (Nat.min_le_right _ _)
  refine ⟨hlen, by rw [hlen]; exact h, ht, ?_⟩
  simp [Node2.buildTop5, List.get_eq_getElem, List.getElem_take]

/-- Witness for C6: the first entry of a two-entry ranking. -/
theorem top5_accepted_as_is_witness :
    (Node2.buildTop5 exTop5).length = min 5 exTop5.length ∧
    ∃ hb : 0 < (Node2.buildTop5 exTop5).length, ∃ ht : 0 < exTop5.length,
      (Node2.buildTop5 exTop5).get ⟨0, hb⟩ = Node2.mkTop5Entry 0 (exTop5.get ⟨0, ht⟩) :=
  top5_accepted_as_is exTop5 0 (by decide)

/-- Claim C7: when the model response has enough entries, the deep-dive stage
yields `min 3 configured_max` dives and the assembled briefing keeps all of
them, in the model's order. -/
theorem deep_dives_count (configured_max : Nat) (resp : List Node2.DeepDiveDict)
    (h : min 3 configured_max ≤ resp.length) :
    (Node2.generate_deep_dives configured_max resp).length = min 3 configured_max ∧
    (Node2.buildDeepDives (Node2.generate_deep_dives configured_max resp)).length
      = min 3 configured_max ∧
    (Node2.buildDeepDives (Node2.generate_deep_dives configured_max resp)).map
        Node2.DeepDive.topic
      = (Node2.generate_deep_dives configured_max resp).map (fun d => d.topic.getD "") := by
  have h1 : (Node2.generate_deep_dives configured_max resp).length = min 3 configured_max := by
    simp [Node2.generate_deep_dives, Nat.min_eq_left h]
  have htake : (Node2.generate_deep_dives configured_max resp).take 3
      = Node2.generate_deep_dives configured_max resp := by
    apply List.take_of_length_le
    rw [h1]
    exact Nat.min_le_left _ _
  refine ⟨h1, ?_, ?_⟩
  · simp [Node2.buildDeepDives, htake, h1]
  · simp [Node2.buildDeepDives, htake, Function.comp_def]

/-- Witness for C7: three configured dives on a three-dive response. -/
theorem deep_dives_count_witness :
    (Node2.generate_deep_dives 3 exDives3).length = min 3 3 ∧
    (Node2.buildDeepDives (Node2.generate_deep_dives 3 exDives3)).length = min 3 3 ∧
    (Node2.buildDeepDives (Node2.generate_deep_dives 3 exDives3)).map Node2.DeepDive.topic
      = (Node2.generate_deep_dives 3 exDives3).map (fun d => d.topic.getD "") :=
  deep_dives_count 3 exDives3 (by decide)

/-- A per-source landscape block only depends on the first three articles of
the source. -/
theorem sourceBlock_take3 (s : String) (articles : List Prompts.SummaryEntry) :
    Prompts.sourceBlock s (articles.take 3) = Prompts.sourceBlock s articles := by
  simp [Prompts.sourceBlock, List.take_take]

/-- Truncating every source's article list to three leaves the accumulated
summaries text unchanged, for any accumulator. -/
theorem summariesText_take3_aux (acc : String)
    (l : List (String × List Prompts.SummaryEntry)) :
    (l.map (fun p => (p.1, p.2.take 3))).foldl
        (fun acc p => acc ++ Prompts.sourceBlock p.1 p.2) acc
      = l.foldl (fun acc p => acc ++ Prompts.sourceBlock p.1 p.2) acc := by
  induction l generalizing acc with
  | nil => rfl
  | cons a t ih => simp [List.foldl_cons, sourceBlock_take3, ih]

/-- Claim C8: the landscape prompt includes at most the top 3 processed
articles of each source — the prompt built from the full per-source lists
equals the prompt built from their per-source 3-element truncations, however
many articles each source contributed. -/
theorem landscape_uses_top3_per_source (user_topics : List String)
    (source_summaries : List (String × List Prompts.SummaryEntry))
    (total_articles : Nat) :
    Prompts.build_landscape_prompt user_topics source_summaries total_articles
      = Prompts.build_landscape_prompt user_topics
          (source_summaries.map (fun p => (p.1, p.2.take 3))) total_articles := by
  simp only [Prompts.build_landscape_prompt, Prompts.summariesText, List.length_map,
    summariesText_take3_aux]

/-- Claim C9 counterexample: two intake submissions with the same email are
both stored — `get_profiles` then holds two profiles for that email, so
email is not a unique key of the store. -/
theorem intake_duplicate_email_cx :
    ¬ ((Node1.get_profiles
          (Node1.create_intake (Node1.create_intake [] exProfile).1 exProfile).1).countP
        (fun q => q.email == "a@example.com") ≤ 1) := by
  decide

/-- Claim C9 (amended): the intake endpoint appends every valid submission
to the store unconditionally — after a successful write the stored profiles
are the previous ones plus the new profile, with no per-email deduplication,
so one email may come to appear in several stored profiles. -/
theorem intake_appends_profile (store : List Node1.UserProfile)
    (p : Node1.UserProfile) (he : p.email ≠ "")
    (htime : Node1.validBriefingTime p.briefing_time = true)
    (htopics : p.topics ≠ []) :
    Node1.get_profiles (Node1.create_intake store p).1
      = Node1.get_profiles store ++ [p] := by
  simp [Node1.create_intake, Node1.get_profiles, Node1.write_profile, he, htime,
    htopics]

/-- Witness for C9's amended theorem at a concrete valid profile. -/
theorem intake_appends_profile_witness :
    Node1.get_profiles (Node1.create_intake [] exProfile).1
      = Node1.get_profiles [] ++ [exProfile] :=
  intake_appends_profile [] exProfile (by decide) (by decide) (by decide)

end Briefing
